import Mathlib

/-!
Shallow embedding of `src/library_backend.py` (Personal-Library-Manager):
the item data model (`Item`, `Book`, `DVD`), the row normalizer, and the
repository load/save logic, together with theorems settling the frozen
claims about the specification.

Python conventions mapped to Lean:
* JSON values parsed by `json.load` are modelled by `JsonValue`; Python
  dicts by association lists `List (String × JsonValue)` (first match wins,
  as keys are unique in parsed JSON).
* Code that raises returns `Except PyError _` or pairs the new state with
  `Option PyError` when Python mutates before raising.
* Machine integers are `Int` (Python ints are unbounded).
-/

namespace LibBackend

/-- A JSON value as produced by Python's `json.load` (floats do not occur in
this repository's stores and are omitted). -/
inductive JsonValue where
  | null : JsonValue
  | bool : Bool → JsonValue
  | num : Int → JsonValue
  | str : String → JsonValue
  | arr : List JsonValue → JsonValue
  | obj : List (String × JsonValue) → JsonValue

/-- The exceptions the backend raises: `ValueError` with its message (the
spec's `ValidationError` / `InvalidStateError`), and `json.JSONDecodeError`
(the spec's `CorruptStoreError` trigger). -/
inductive PyError where
  | valueError : String → PyError
  | jsonDecodeError : PyError
deriving DecidableEq

/-- Characters stripped by Python's `str.strip()` (the whitespace set in the
ASCII/Latin-1 range; wider Unicode spaces never occur in the claims). -/
def pyIsSpace (c : Char) : Bool :=
  [9, 10, 11, 12, 13, 28, 29, 30, 31, 32, 133, 160].contains c.toNat

/-- Python `str.strip()`. -/
def pyStrip (s : String) : String :=
  String.mk (((s.data.dropWhile pyIsSpace).reverse.dropWhile pyIsSpace).reverse)

/-- Python truthiness (`bool(x)`) on JSON values. -/
def pyTruthy : JsonValue → Bool
  | JsonValue.null => false
  | JsonValue.bool b => b
  | JsonValue.num n => !(n == 0)
  | JsonValue.str s => !(s == "")
  | JsonValue.arr xs => !xs.isEmpty
  | JsonValue.obj fs => !fs.isEmpty

/-- Value of a list of decimal digit characters. -/
def natOfDigits (cs : List Char) : Nat :=
  cs.foldl (fun a c => a * 10 + (c.toNat - 48)) 0

/-- Python `int(s)` on a string: strips whitespace, then an optional sign and
decimal digits (underscore digit grouping never occurs in the claims). -/
def pyIntOfStr (s : String) : Option Int :=
  let t := pyStrip s
  match t.data with
  | [] => none
  | c :: rest =>
    if c = '-' then
      if rest ≠ [] ∧ rest.all Char.isDigit then some (-(natOfDigits rest : Int)) else none
    else if c = '+' then
      if rest ≠ [] ∧ rest.all Char.isDigit then some ((natOfDigits rest : Int)) else none
    else
      if (c :: rest).all Char.isDigit then some ((natOfDigits (c :: rest) : Int)) else none

/-- Python `int(x)` on a JSON value: `TypeError`/`ValueError` become `none`.
`int(True) = 1`, `int(False) = 0` (Python bool is an int subtype). -/
def pyInt : JsonValue → Option Int
  | JsonValue.null => none
  | JsonValue.bool b => some (if b then 1 else 0)
  | JsonValue.num n => some n
  | JsonValue.str s => pyIntOfStr s
  | JsonValue.arr _ => none
  | JsonValue.obj _ => none

mutual

/-- Python `repr(x)` on a JSON value (string escaping inside compound reprs is
abbreviated; compound values never reach `str()` in the claims). -/
def pyReprOf : JsonValue → String
  | JsonValue.null => "None"
  | JsonValue.bool b => if b then "True" else "False"
  | JsonValue.num n => toString n
  | JsonValue.str s => "'" ++ s ++ "'"
  | JsonValue.arr xs => "[" ++ pyReprList xs ++ "]"
  | JsonValue.obj fs => "\x7b" ++ pyReprFields fs ++ "\x7d"

/-- Comma-joined reprs of a list's elements. -/
def pyReprList : List JsonValue → String
  | [] => ""
  | [x] => pyReprOf x
  | x :: xs => pyReprOf x ++ ", " ++ pyReprList xs

/-- Comma-joined reprs of a dict's entries. -/
def pyReprFields : List (String × JsonValue) → String
  | [] => ""
  | [(k, v)] => "'" ++ k ++ "': " ++ pyReprOf v
  | (k, v) :: fs => "'" ++ k ++ "': " ++ pyReprOf v ++ ", " ++ pyReprFields fs

end

/-- Python `str(x)` on a JSON value. -/
def pyStrOf : JsonValue → String
  | JsonValue.str s => s
  | v => pyReprOf v

/-- First-match lookup in a Python dict modelled as an association list. -/
def dictGet? : List (String × JsonValue) → String → Option JsonValue
  | [], _ => none
  | (k, v) :: rest, key => if k = key then some v else dictGet? rest key

/-- Python `d.get(key)`: `None` when the key is absent. -/
def dictGet (d : List (String × JsonValue)) (key : String) : JsonValue :=
  (dictGet? d key).getD JsonValue.null

/-- Python `d.get(key, default)`. -/
def dictGetD (d : List (String × JsonValue)) (key : String) (dflt : JsonValue) : JsonValue :=
  (dictGet? d key).getD dflt

/-- Python `d[key] = v`: updates the first occurrence or appends. -/
def dictSet : List (String × JsonValue) → String → JsonValue → List (String × JsonValue)
  | [], key, v => [(key, v)]
  | (k, v0) :: rest, key, v =>
    if k = key then (key, v) :: rest else (k, v0) :: dictSet rest key v

/-- Split a character list on the separator `-` (the semantics of
`str.split`/`splitOn` for a one-character separator). -/
def splitOnDash : List Char → List (List Char)
  | [] => [[]]
  | c :: rest =>
    let r := splitOnDash rest
    if c = '-' then [] :: r
    else
      match r with
      | [] => [[c]]
      | g :: gs => (c :: g) :: gs

/-- The source's date format `DATE_FORMAT = "%Y-%m-%d"`, as parsed by
`datetime.strptime`: `%Y` is exactly four digits, `%m` and `%d` are one or two
digits with values 1–12 and 1–31, and the whole string must be consumed. -/
def strptimeYmd (s : String) : Option (Nat × Nat × Nat) :=
  match splitOnDash s.data with
  | [ys, ms, ds] =>
    if ys.length = 4 ∧ ys.all Char.isDigit
        ∧ (ms.length = 1 ∨ ms.length = 2) ∧ ms.all Char.isDigit
        ∧ (ds.length = 1 ∨ ds.length = 2) ∧ ds.all Char.isDigit then
      let y := natOfDigits ys
      let m := natOfDigits ms
      let d := natOfDigits ds
      if 1 ≤ m ∧ m ≤ 12 ∧ 1 ≤ d ∧ d ≤ 31 then some (y, m, d) else none
    else none
  | _ => none

/-- Gregorian leap year, as in Python's `datetime`. -/
def isLeapYear (y : Nat) : Bool :=
  y % 4 == 0 && (!(y % 100 == 0) || y % 400 == 0)

/-- Days in a month, as validated by the `datetime` constructor. -/
def daysInMonth (y m : Nat) : Nat :=
  if m = 2 then (if isLeapYear y then 29 else 28)
  else if [4, 6, 9, 11].contains m then 30 else 31

/-- Whether `datetime.strptime(s, "%Y-%m-%d")` succeeds: the format matches
and the `datetime` constructor accepts the components (year ≥ 1, day within
the month). -/
def validDateString (s : String) : Bool :=
  match strptimeYmd s with
  | some (y, m, d) => decide (1 ≤ y ∧ d ≤ daysInMonth y m)
  | none => false

/-- `ensure_due_date_string`: validate and normalize a due date string.
(The argument is `String`-typed, so only the `not value.strip()` half of the
source's first guard applies.) -/
def ensure_due_date_string (value : String) : Except PyError String :=
  if pyStrip value = "" then
    Except.error (PyError.valueError "Due date must be a non-empty YYYY-MM-DD string.")
  else
    let trimmed := pyStrip value
    if validDateString trimmed then Except.ok trimmed
    else Except.error (PyError.valueError "Due date must follow %Y-%m-%d format.")

/-- `f"Row {index + 1}: " + rest`: the per-row error message prefix used by
the normalizer helpers (1-based row number). -/
def rowMsg (index : Nat) (rest : String) : String :=
  "Row " ++ toString (index + 1) ++ ": " ++ rest

/-- `_require_string(value, field, index, allow_empty)`. -/
def _require_string (value : JsonValue) (field : String) (index : Nat)
    (allow_empty : Bool) : Except PyError String :=
  match value with
  | JsonValue.str s =>
    let trimmed := pyStrip s
    if trimmed = "" ∧ allow_empty = false then
      Except.error (PyError.valueError (rowMsg index (field ++ " cannot be empty.")))
    else Except.ok (if allow_empty then s else trimmed)
  | _ => Except.error (PyError.valueError (rowMsg index (field ++ " must be a string.")))

/-- `_require_bool(value, index)`: only a literal boolean passes
(`isinstance(value, bool)`). -/
def _require_bool (value : JsonValue) (index : Nat) : Except PyError Bool :=
  match value with
  | JsonValue.bool b => Except.ok b
  | _ => Except.error (PyError.valueError (rowMsg index "is_checked_out must be true or false."))

/-- `_require_positive_int(value, field, index, allow_zero)`: `int(value)`
failures (`TypeError`, `ValueError`) become the "must be a positive integer"
message. -/
def _require_positive_int (value : JsonValue) (field : String) (index : Nat)
    (allow_zero : Bool) : Except PyError Int :=
  match pyInt value with
  | none => Except.error (PyError.valueError (rowMsg index (field ++ " must be a positive integer.")))
  | some number =>
    if allow_zero then
      if number < 0 then
        Except.error (PyError.valueError (rowMsg index (field ++ " cannot be negative.")))
      else Except.ok number
    else
      if number ≤ 0 then
        Except.error (PyError.valueError (rowMsg index (field ++ " must be greater than zero.")))
      else Except.ok number

/-- `_require_rating(value, index)`. -/
def _require_rating (value : JsonValue) (index : Nat) : Except PyError Int :=
  match _require_positive_int value "rating" index false with
  | Except.error e => Except.error e
  | Except.ok rating =>
    if 1 ≤ rating ∧ rating ≤ 5 then Except.ok rating
    else Except.error (PyError.valueError (rowMsg index "rating must be between 1 and 5."))

/-- `_require_date_or_none(value, index)`: `value in {None, ""}` passes as
null; a string is validated by `ensure_due_date_string` (whose error
propagates unchanged) and returned stripped; anything else is rejected. -/
def _require_date_or_none (value : JsonValue) (index : Nat) : Except PyError (Option String) :=
  match value with
  | JsonValue.null => Except.ok none
  | JsonValue.str s =>
    if s = "" then Except.ok none
    else
      match ensure_due_date_string s with
      | Except.error e => Except.error e
      | Except.ok _ => Except.ok (some (pyStrip s))
  | _ => Except.error (PyError.valueError (rowMsg index "due_date must be null or a %Y-%m-%d string."))

/-- `_normalize_item_type(primary, fallback, index)`: `candidate = primary or
fallback` (Python truthiness), must be a string whose stripped value is in
`VALID_ITEM_TYPES = {"Book", "DVD"}`; the error lists the allowed values
(`sorted` gives "Book, DVD"). -/
def _normalize_item_type (primary fallback : JsonValue) (index : Nat) : Except PyError String :=
  let candidate := if pyTruthy primary then primary else fallback
  match candidate with
  | JsonValue.str s =>
    let c := pyStrip s
    if c = "Book" ∨ c = "DVD" then Except.ok c
    else Except.error (PyError.valueError (rowMsg index "type must be one of Book, DVD."))
  | _ => Except.error (PyError.valueError (rowMsg index "type must be one of Book, DVD."))

/-- `_normalize_json_row(row, index)`: validates the shared fields in source
order (id, title, is_checked_out, due_date, type), then the variant fields,
building the normalized dict from a copy of the row. -/
def _normalize_json_row (row : JsonValue) (index : Nat) : Except PyError (List (String × JsonValue)) :=
  match row with
  | JsonValue.obj fields =>
    match _require_positive_int (dictGet fields "id") "id" index false with
    | Except.error e => Except.error e
    | Except.ok idv =>
    match _require_string (dictGet fields "title") "title" index false with
    | Except.error e => Except.error e
    | Except.ok titlev =>
    match _require_bool (dictGet fields "is_checked_out") index with
    | Except.error e => Except.error e
    | Except.ok checkedv =>
    match _require_date_or_none (dictGet fields "due_date") index with
    | Except.error e => Except.error e
    | Except.ok duev =>
    match _normalize_item_type (dictGet fields "type") (dictGet fields "item_type") index with
    | Except.error e => Except.error e
    | Except.ok item_type =>
    let n0 := dictSet fields "id" (JsonValue.num idv)
    let n1 := dictSet n0 "title" (JsonValue.str titlev)
    let n2 := dictSet n1 "is_checked_out" (JsonValue.bool checkedv)
    let n3 := dictSet n2 "due_date" (match duev with | some s => JsonValue.str s | none => JsonValue.null)
    let n4 := dictSet n3 "type" (JsonValue.str item_type)
    let n5 := dictSet n4 "item_type" (JsonValue.str item_type)
    if item_type = "Book" then
      match _require_string (dictGet fields "author") "author" index false with
      | Except.error e => Except.error e
      | Except.ok authorv =>
      match _require_positive_int (dictGet fields "pages") "pages" index false with
      | Except.error e => Except.error e
      | Except.ok pagesv =>
        Except.ok (dictSet (dictSet n5 "author" (JsonValue.str authorv)) "pages" (JsonValue.num pagesv))
    else
      let durationSource :=
        match dictGet? fields "duration" with
        | some v => v
        | none => dictGet fields "duration_minutes"
      match _require_positive_int durationSource "duration" index false with
      | Except.error e => Except.error e
      | Except.ok durationv =>
      match _require_rating (dictGet fields "rating") index with
      | Except.error e => Except.error e
      | Except.ok ratingv =>
        Except.ok (dictSet (dictSet (dictSet n5 "duration" (JsonValue.num durationv))
          "duration_minutes" (JsonValue.num durationv)) "rating" (JsonValue.num ratingv))
  | _ => Except.error (PyError.valueError (rowMsg index "each entry must be a JSON object."))

/-- Type-specific payload of an item: the base `Item` class, a `Book`
(author, pages) or a `DVD` (duration, rating). -/
inductive ItemData where
  | base : ItemData
  | book : String → Int → ItemData
  | dvd : Int → Int → ItemData
deriving DecidableEq

/-- The `Item` dataclass (with `Book`/`DVD` subclass fields in `data`).
`id` is `none` only before `__post_init__` assigns one. -/
structure Item where
  title : String
  is_checked_out : Bool := false
  due_date : Option String := none
  id : Option Int := none
  data : ItemData := ItemData.base
deriving DecidableEq

/-- `Item.__class__.__name__`, the serialization discriminator. -/
def className : ItemData → String
  | ItemData.base => "Item"
  | ItemData.book _ _ => "Book"
  | ItemData.dvd _ _ => "DVD"

/-- `Item._generate_id`: returns the class counter and increments it. -/
def _generate_id (counter : Int) : Int × Int :=
  (counter, counter + 1)

/-- `Item.check_out(due_date)`. Python mutates in place and may then raise, so
the result pairs the item's post-call state with the raised error (if any):
the already-checked-out guard raises before any mutation, but
`is_checked_out` is set to `True` before the due date is validated. -/
def check_out (it : Item) (due_date : String) : Item × Option PyError :=
  if it.is_checked_out then
    (it, some (PyError.valueError ("Item '" ++ it.title ++ "' is already checked out.")))
  else
    let it1 : Item := { it with is_checked_out := true }
    match ensure_due_date_string due_date with
    | Except.ok d => ({ it1 with due_date := some d }, none)
    | Except.error e => (it1, some e)

/-- `Item.return_item()`: result pairs the post-call state with the raised
error (if any). -/
def return_item (it : Item) : Item × Option PyError :=
  if it.is_checked_out then
    ({ it with is_checked_out := false, due_date := none }, none)
  else
    (it, some (PyError.valueError ("Item '" ++ it.title ++ "' is not currently checked out.")))

/-- `to_dict` of `Item`, `Book` and `DVD`: a dict literal of the shared
fields plus `dict.update` with the variant fields (appended, as the keys are
new). -/
def to_dict (it : Item) : List (String × JsonValue) :=
  let base : List (String × JsonValue) := [
    ("id", match it.id with | some n => JsonValue.num n | none => JsonValue.null),
    ("title", JsonValue.str it.title),
    ("is_checked_out", JsonValue.bool it.is_checked_out),
    ("due_date", match it.due_date with | some s => JsonValue.str s | none => JsonValue.null),
    ("item_type", JsonValue.str (className it.data)),
    ("type", JsonValue.str (className it.data))]
  match it.data with
  | ItemData.base => base
  | ItemData.book a p => base ++ [("author", JsonValue.str a), ("pages", JsonValue.num p)]
  | ItemData.dvd dur r => base ++ [("duration", JsonValue.num dur),
      ("duration_minutes", JsonValue.num dur), ("rating", JsonValue.num r)]

/-- A `due_date` payload value as the `Optional[str]` field stores it: null
or a string. Any other value is outside this typed embedding (Python would
store the raw value; such payloads never arise from `to_dict` or the
normalizer). -/
def jsonToOptStr : JsonValue → Option (Option String)
  | JsonValue.null => some none
  | JsonValue.str s => some (some s)
  | _ => none

/-- The `id` field of a deserialized item together with the class counter:
`int(payload["id"]) if payload.get("id") is not None else None`, with
`__post_init__` drawing a fresh id from the counter in the `None` case.
`none` models `int()` raising. -/
def deserializeId (payload : List (String × JsonValue)) (counter : Int) : Option (Int × Int) :=
  match dictGet payload "id" with
  | JsonValue.null => some (_generate_id counter)
  | v =>
    match pyInt v with
    | some n => some (n, counter)
    | none => none

/-- `Item._deserialize(payload)` (also the registry's fallback for unknown
discriminators), threading the id counter. -/
def deserialize_base (payload : List (String × JsonValue)) (counter : Int) : Option (Item × Int) :=
  match jsonToOptStr (dictGet payload "due_date") with
  | none => none
  | some dd =>
    match deserializeId payload counter with
    | none => none
    | some (n, counter1) =>
      some ({ title := pyStrOf (dictGetD payload "title" (JsonValue.str "Untitled")),
              is_checked_out := pyTruthy (dictGetD payload "is_checked_out" (JsonValue.bool false)),
              due_date := dd, id := some n, data := ItemData.base }, counter1)

/-- `Book._deserialize(payload)`. -/
def deserialize_book (payload : List (String × JsonValue)) (counter : Int) : Option (Item × Int) :=
  match jsonToOptStr (dictGet payload "due_date") with
  | none => none
  | some dd =>
    match pyInt (dictGetD payload "pages" (JsonValue.num 1)) with
    | none => none
    | some pages =>
      match deserializeId payload counter with
      | none => none
      | some (n, counter1) =>
        some ({ title := pyStrOf (dictGetD payload "title" (JsonValue.str "Untitled")),
                is_checked_out := pyTruthy (dictGetD payload "is_checked_out" (JsonValue.bool false)),
                due_date := dd, id := some n,
                data := ItemData.book (pyStrOf (dictGetD payload "author" (JsonValue.str "Unknown"))) pages },
              counter1)

/-- `DVD._deserialize(payload)`: the duration comes from `duration`, falling
back to `duration_minutes`, defaulting to 1. -/
def deserialize_dvd (payload : List (String × JsonValue)) (counter : Int) : Option (Item × Int) :=
  let durationValue := dictGetD payload "duration" (dictGetD payload "duration_minutes" (JsonValue.num 1))
  match jsonToOptStr (dictGet payload "due_date") with
  | none => none
  | some dd =>
    match pyInt durationValue, pyInt (dictGetD payload "rating" (JsonValue.num 3)) with
    | some duration, some rating =>
      match deserializeId payload counter with
      | none => none
      | some (n, counter1) =>
        some ({ title := pyStrOf (dictGetD payload "title" (JsonValue.str "Untitled")),
                is_checked_out := pyTruthy (dictGetD payload "is_checked_out" (JsonValue.bool false)),
                due_date := dd, id := some n, data := ItemData.dvd duration rating },
              counter1)
    | _, _ => none

/-- `Item.from_dict(payload)`: the discriminator is
`payload.get("item_type", payload.get("type", "Item"))` coerced with `str`,
looked up in `ITEM_TYPE_REGISTRY` with the base class as fallback. -/
def from_dict (payload : List (String × JsonValue)) (counter : Int) : Option (Item × Int) :=
  let item_type := pyStrOf (dictGetD payload "item_type" (dictGetD payload "type" (JsonValue.str "Item")))
  if item_type = "Book" then deserialize_book payload counter
  else if item_type = "DVD" then deserialize_dvd payload counter
  else deserialize_base payload counter

/-- Python `max` over a list of ints (callers guard against the empty list,
where Python raises). -/
def pyMax : List Int → Int
  | [] => 0
  | x :: xs => xs.foldl max x

/-- `Item.sync_id_counter(items)`: the new class counter. -/
def sync_id_counter (items : List Item) : Int :=
  if items = [] then 1
  else pyMax (items.map (fun it => it.id.getD 0)) + 1

/-- The repository's mutable state relevant to the claims: the in-memory
collection and the class-level id counter. -/
structure RepoState where
  items : List Item
  counter : Int
deriving DecidableEq

/-- What `load_items` finds at `json_path`: no file, a file `json.load`
rejects (`JSONDecodeError`), or a file parsing to a JSON value. -/
inductive FileContent where
  | absent : FileContent
  | unparsable : FileContent
  | parsed : JsonValue → FileContent

/-- `LibraryRepository.save_items()`: the serialized rows written to the
backing file (`[item.to_dict() for item in self.items]`). -/
def save_items (items : List Item) : List (List (String × JsonValue)) :=
  items.map to_dict

/-- `[Item.from_dict(blob) for blob in normalized_rows]`, threading the id
counter; `none` if any deserialization fails (in Python that raise is caught
by the same `except ValueError` handler as normalization errors, but it is
unreachable for normalized rows). -/
def fromDictAll : List (List (String × JsonValue)) → Int → Option (List Item × Int)
  | [], counter => some ([], counter)
  | row :: rest, counter =>
    match from_dict row counter with
    | none => none
    | some (it, counter1) =>
      match fromDictAll rest counter1 with
      | none => none
      | some (items, counter2) => some (it :: items, counter2)

/-- `[_normalize_json_row(row, idx) for idx, row in enumerate(payload)]`:
stops at the first failing row. -/
def normalizeRowsAux : List JsonValue → Nat → Except PyError (List (List (String × JsonValue)))
  | [], _ => Except.ok []
  | row :: rest, idx =>
    match _normalize_json_row row idx with
    | Except.error e => Except.error e
    | Except.ok r =>
      match normalizeRowsAux rest (idx + 1) with
      | Except.error e => Except.error e
      | Except.ok rs => Except.ok (r :: rs)

/-- `LibraryRepository._normalize_rows(payload)`: `payload in (None, "")`
yields an empty row list; a non-list is rejected; otherwise each row is
normalized. -/
def _normalize_rows (payload : JsonValue) : Except PyError (List (List (String × JsonValue))) :=
  match payload with
  | JsonValue.null => Except.ok []
  | JsonValue.str s =>
    if s = "" then Except.ok []
    else Except.error (PyError.valueError "Items JSON must contain a list of records.")
  | JsonValue.arr rows => normalizeRowsAux rows 0
  | _ => Except.error (PyError.valueError "Items JSON must contain a list of records.")

/-- Everything observable about one `load_items()` call: the repository
state it leaves behind, the rows written by any `save_items()` it made,
whether `_prompt_reset_invalid_json` was shown, and the error it re-raised
(if any). -/
structure LoadResult where
  state : RepoState
  written : Option (List (List (String × JsonValue)))
  prompted : Bool
  raised : Option PyError

/-- `LibraryRepository.load_items()`, parameterized by the file's content,
the user's answer to the recovery prompt, and the repository state before
the call. A missing file establishes an empty store; a parsed file is
normalized, deserialized and the id counter resynced; `JSONDecodeError` or
`ValueError` trigger the prompt — yes resets to empty and persists it
(without resyncing the counter), no re-raises the original error. -/
def load_items (file : FileContent) (answer : Bool) (st : RepoState) : LoadResult :=
  match file with
  | FileContent.absent =>
    { state := { items := [], counter := st.counter },
      written := some (save_items []), prompted := false, raised := none }
  | FileContent.unparsable =>
    if answer then
      { state := { items := [], counter := st.counter },
        written := some (save_items []), prompted := true, raised := none }
    else
      { state := st, written := none, prompted := true, raised := some PyError.jsonDecodeError }
  | FileContent.parsed data =>
    match _normalize_rows data with
    | Except.error e =>
      if answer then
        { state := { items := [], counter := st.counter },
          written := some (save_items []), prompted := true, raised := none }
      else
        { state := st, written := none, prompted := true, raised := some e }
    | Except.ok rows =>
      match fromDictAll rows st.counter with
      | some (items, _) =>
        { state := { items := items, counter := sync_id_counter items },
          written := none, prompted := false, raised := none }
      | none =>
        if answer then
          { state := { items := [], counter := st.counter },
            written := some (save_items []), prompted := true, raised := none }
        else
          { state := st, written := none, prompted := true,
            raised := some (PyError.valueError "invalid literal for int()") }

/-- The spec's checkout invariant on one item: checked out implies the due
date is a valid `YYYY-MM-DD` string, not checked out implies it is null. -/
def checkoutInvariant (it : Item) : Bool :=
  if it.is_checked_out then
    match it.due_date with
    | some d => validDateString d
    | none => false
  else
    match it.due_date with
    | some _ => false
    | none => true

/-- A stored Book row with id 3 (used as a concrete load input). -/
def bookRow3 : JsonValue :=
  JsonValue.obj [("id", JsonValue.num 3), ("title", JsonValue.str "1984"),
    ("is_checked_out", JsonValue.bool false), ("due_date", JsonValue.null),
    ("type", JsonValue.str "Book"), ("author", JsonValue.str "George Orwell"),
    ("pages", JsonValue.num 328)]

/-- A stored DVD row with id 7 (used as a concrete load input). -/
def dvdRow7 : JsonValue :=
  JsonValue.obj [("id", JsonValue.num 7), ("title", JsonValue.str "Inception"),
    ("is_checked_out", JsonValue.bool true), ("due_date", JsonValue.str "2025-01-15"),
    ("type", JsonValue.str "DVD"), ("duration", JsonValue.num 148),
    ("rating", JsonValue.num 4)]

/-- A stored row whose `is_checked_out` is the string "yes" (spec's scenario
for the literal-boolean rule). -/
def yesRow : List (String × JsonValue) :=
  [("id", JsonValue.num 3), ("title", JsonValue.str "1984"),
   ("is_checked_out", JsonValue.str "yes"), ("due_date", JsonValue.null),
   ("type", JsonValue.str "Book"), ("author", JsonValue.str "George Orwell"),
   ("pages", JsonValue.num 328)]

/-- A concrete available item (not checked out, null due date). -/
def duneAvailable : Item :=
  { title := "Dune", is_checked_out := false, due_date := none, id := some 1 }

/-- `duneAvailable` after the buggy failed checkout: checked out, due date
still null. -/
def duneStuck : Item :=
  { title := "Dune", is_checked_out := true, due_date := none, id := some 1 }

/-- A concrete checked-out item with a valid due date. -/
def duneCheckedOut : Item :=
  { title := "Dune", is_checked_out := true, due_date := some "2025-01-15", id := some 1 }

/-- A concrete available base item with a different title and id. -/
def plainItem2 : Item :=
  { title := "1984", is_checked_out := false, due_date := none, id := some 2 }

/-- A concrete Book item. -/
def orwellBook : Item :=
  { title := "1984", is_checked_out := false, due_date := none, id := some 1,
    data := ItemData.book "George Orwell" 328 }

/-! ## Helper lemmas -/

/-- The seed of a left max-fold bounds below the fold's result. -/
theorem le_foldl_max (xs : List Int) (a : Int) : a ≤ xs.foldl max a := by
  induction xs generalizing a with
  | nil => exact le_refl a
  | cons y ys ih => exact le_trans (le_max_left a y) (ih (max a y))

/-- Every member of a list bounds below a left max-fold over it. -/
theorem mem_le_foldl_max (xs : List Int) (a x : Int) (hx : x ∈ xs) : x ≤ xs.foldl max a := by
  induction xs generalizing a with
  | nil => cases hx
  | cons y ys ih =>
    rcases List.mem_cons.mp hx with h | h
    · subst h
      exact le_trans (le_max_right a x) (le_foldl_max ys (max a x))
    · exact ih (max a y) h

/-- `pyMax` bounds every member of the list. -/
theorem le_pyMax (l : List Int) (x : Int) (hx : x ∈ l) : x ≤ pyMax l := by
  cases l with
  | nil => cases hx
  | cons y ys =>
    rcases List.mem_cons.mp hx with h | h
    · subst h
      exact le_foldl_max ys x
    · exact mem_le_foldl_max ys y x h

/-- `sync_id_counter` computes `(max of ids, or 0 for the empty collection) + 1`. -/
theorem sync_id_counter_eq (items : List Item) :
    sync_id_counter items =
      (if items = [] then 0 else pyMax (items.map (fun it => it.id.getD 0))) + 1 := by
  unfold sync_id_counter
  by_cases h : items = [] <;> simp [h]

/-- No item of the collection carries the id `sync_id_counter` returns. -/
theorem sync_id_counter_fresh (items : List Item) :
    ∀ it ∈ items, it.id ≠ some (sync_id_counter items) := by
  intro it hmem heq
  have hne : items ≠ [] := by
    rintro rfl
    cases hmem
  have hsync : sync_id_counter items = pyMax (items.map (fun i => i.id.getD 0)) + 1 := by
    unfold sync_id_counter
    simp [hne]
  have hx : it.id.getD 0 ∈ items.map (fun i => i.id.getD 0) := List.mem_map_of_mem _ hmem
  have hle := le_pyMax _ _ hx
  rw [heq] at hle
  rw [hsync] at hle
  simp at hle

/-! ## Claim theorems -/

/-- C1 (code bug witness): calling `check_out` with a malformed due date on an
item that is not checked out raises the `ValidationError`, but — contrary to
the claim — leaves the item with `is_checked_out = true` and `due_date = null`:
the source sets `self.is_checked_out = True` before validating the date. -/
theorem check_out_invalid_date_mutates :
    check_out duneAvailable "not-a-date" =
      (duneStuck, some (PyError.valueError "Due date must follow %Y-%m-%d format.")) := rfl

/-- C2 (code bug witness): the checkout invariant holds before a failed
`check_out` with a malformed date, the call raises, and the invariant is false
afterwards (item checked out with a null due date). -/
theorem invariant_broken_after_failed_check_out :
    checkoutInvariant duneAvailable = true ∧
    (check_out duneAvailable "not-a-date").2 =
      some (PyError.valueError "Due date must follow %Y-%m-%d format.") ∧
    checkoutInvariant (check_out duneAvailable "not-a-date").1 = false :=
  ⟨rfl, rfl, rfl⟩

/-- C3: for every item with an assigned id (every constructed item has one),
deserializing its serialized record yields the very same item — on every
field of every variant — and leaves the id counter untouched. -/
theorem from_dict_to_dict_roundtrip (it : Item) (c : Int) (h : it.id ≠ none) :
    from_dict (to_dict it) c = some (it, c) := by
  cases it with
  | mk title ico dd idv data =>
    cases idv with
    | none => exact absurd rfl h
    | some n => cases data <;> cases dd <;> rfl

/-- C3 witness: the round trip at a concrete Book. -/
theorem from_dict_to_dict_roundtrip_witness :
    from_dict (to_dict orwellBook) 5 = some (orwellBook, 5) :=
  from_dict_to_dict_roundtrip orwellBook 5 (fun h => Option.noConfusion h)

/-- C4: `check_out` on an already-checked-out item raises the invalid-state
`ValueError` and returns the item with every field unchanged, and
`return_item` on a not-checked-out item raises its invalid-state `ValueError`
and likewise changes nothing. -/
theorem invalid_state_transitions (it : Item) (d : String) :
    (it.is_checked_out = true →
      check_out it d =
        (it, some (PyError.valueError ("Item '" ++ it.title ++ "' is already checked out.")))) ∧
    (it.is_checked_out = false →
      return_item it =
        (it, some (PyError.valueError ("Item '" ++ it.title ++ "' is not currently checked out.")))) := by
  constructor <;> intro h <;> simp [check_out, return_item, h]

/-- C4 witness: both transitions at concrete items. -/
theorem invalid_state_transitions_witness :
    check_out duneCheckedOut "2025-02-01" =
      (duneCheckedOut, some (PyError.valueError "Item 'Dune' is already checked out.")) ∧
    return_item plainItem2 =
      (plainItem2, some (PyError.valueError "Item '1984' is not currently checked out.")) :=
  ⟨(invalid_state_transitions duneCheckedOut "2025-02-01").1 rfl,
   (invalid_state_transitions plainItem2 "").2 rfl⟩

/-- C5 counterexample: a full load that hits the corruption-recovery reset
(answer yes) leaves the collection empty but does not recompute the id
counter: with the counter at 8 beforehand it stays 8, not `(max ids, or 0) + 1
= 1`. -/
theorem counter_not_resynced_on_recovery_reset :
    (load_items FileContent.unparsable true { items := [], counter := 8 }).state.items = [] ∧
    (load_items FileContent.unparsable true { items := [], counter := 8 }).state.counter = 8 ∧
    ¬((load_items FileContent.unparsable true { items := [], counter := 8 }).state.counter = 0 + 1) :=
  ⟨rfl, rfl, by decide⟩

/-- C5 (amended): the id counter is recomputed only by a load that reads and
deserializes an existing backing file. After a load of a present, parsed
file that completes without invoking the recovery prompt, the counter equals
`(max of existing ids, or 0) + 1` and no item of the resulting collection
carries the id the next `_generate_id` would assign; the two loads that
bypass deserialization — initializing a missing file and the
corruption-recovery reset — instead leave the collection empty and the
counter unchanged (so no fresh id can collide there either, vacuously). -/
theorem id_counter_after_successful_parse_load (file : FileContent) (answer : Bool)
    (st : RepoState) (v : JsonValue) (hf : file = FileContent.parsed v)
    (hp : (load_items file answer st).prompted = false) :
    ((load_items file answer st).state.counter =
      (if (load_items file answer st).state.items = [] then 0
       else pyMax ((load_items file answer st).state.items.map (fun it => it.id.getD 0))) + 1) ∧
    (∀ it ∈ (load_items file answer st).state.items,
      it.id ≠ some ((_generate_id (load_items file answer st).state.counter).1)) ∧
    ((load_items FileContent.absent answer st).state.items = [] ∧
     (load_items FileContent.absent answer st).state.counter = st.counter) ∧
    ((load_items FileContent.unparsable true st).state.items = [] ∧
     (load_items FileContent.unparsable true st).state.counter = st.counter) := by
  subst hf
  cases h1 : _normalize_rows v with
  | error e =>
    exfalso
    cases answer <;> simp [load_items, h1] at hp
  | ok rows =>
    cases h2 : fromDictAll rows st.counter with
    | none =>
      exfalso
      cases answer <;> simp [load_items, h1, h2] at hp
    | some p =>
      obtain ⟨items, c1⟩ := p
      refine ⟨?_, ?_, ⟨rfl, rfl⟩, rfl, rfl⟩
      · simp only [load_items, h1, h2]
        exact sync_id_counter_eq items
      · simp only [load_items, h1, h2, _generate_id]
        exact sync_id_counter_fresh items

/-- C5 witness: loading a store with ids 3 and 7 ends with the counter at
`max + 1`. -/
theorem id_counter_after_successful_parse_load_witness :
    (load_items (FileContent.parsed (JsonValue.arr [bookRow3, dvdRow7])) true
        { items := [], counter := 1 }).state.counter =
      (if (load_items (FileContent.parsed (JsonValue.arr [bookRow3, dvdRow7])) true
            { items := [], counter := 1 }).state.items = [] then 0
       else pyMax ((load_items (FileContent.parsed (JsonValue.arr [bookRow3, dvdRow7])) true
            { items := [], counter := 1 }).state.items.map (fun it => it.id.getD 0))) + 1 :=
  (id_counter_after_successful_parse_load (FileContent.parsed (JsonValue.arr [bookRow3, dvdRow7]))
    true { items := [], counter := 1 } (JsonValue.arr [bookRow3, dvdRow7]) rfl rfl).1

/-- C6: a present backing file that is unparsable JSON, or that fails
normalization, triggers the recovery prompt; answering yes empties the
collection and writes a valid empty-array file, answering no re-raises the
original error and leaves the state alone. -/
theorem load_corrupt_recovery (st : RepoState) (answer : Bool) (v : JsonValue) (e : PyError)
    (hv : _normalize_rows v = Except.error e) :
    ((load_items FileContent.unparsable answer st).prompted = true ∧
     (load_items (FileContent.parsed v) answer st).prompted = true) ∧
    (answer = true →
      load_items FileContent.unparsable answer st =
        { state := { items := [], counter := st.counter }, written := some [],
          prompted := true, raised := none } ∧
      load_items (FileContent.parsed v) answer st =
        { state := { items := [], counter := st.counter }, written := some [],
          prompted := true, raised := none }) ∧
    (answer = false →
      load_items FileContent.unparsable answer st =
        { state := st, written := none, prompted := true, raised := some PyError.jsonDecodeError } ∧
      load_items (FileContent.parsed v) answer st =
        { state := st, written := none, prompted := true, raised := some e }) := by
  cases answer <;> simp [load_items, hv, save_items]

/-- C6 witness: a payload failing normalization, with answer yes, yields the
empty collection and a written empty array. -/
theorem load_corrupt_recovery_witness :
    load_items (FileContent.parsed (JsonValue.str "x")) true { items := [], counter := 1 } =
      { state := { items := [], counter := 1 }, written := some [],
        prompted := true, raised := none } :=
  ((load_corrupt_recovery { items := [], counter := 1 } true (JsonValue.str "x")
      (PyError.valueError "Items JSON must contain a list of records.") rfl).2.1 rfl).2

/-- C7: when a row's id and title validate, a non-boolean `is_checked_out`
value makes `_normalize_json_row` fail with the `ValueError` naming the
1-based row and the `is_checked_out` field: no truthy coercion. -/
theorem normalize_checked_out_literal_bool (fields : List (String × JsonValue)) (index : Nat)
    (idv : Int) (titlev : String)
    (hid : _require_positive_int (dictGet fields "id") "id" index false = Except.ok idv)
    (htitle : _require_string (dictGet fields "title") "title" index false = Except.ok titlev)
    (hb : ∀ b, dictGet fields "is_checked_out" ≠ JsonValue.bool b) :
    _normalize_json_row (JsonValue.obj fields) index =
      Except.error (PyError.valueError (rowMsg index "is_checked_out must be true or false.")) := by
  have hbool : _require_bool (dictGet fields "is_checked_out") index =
      Except.error (PyError.valueError (rowMsg index "is_checked_out must be true or false.")) := by
    cases hv : dictGet fields "is_checked_out" with
    | bool b => exact absurd hv (hb b)
    | null => rfl
    | num n => rfl
    | str s => rfl
    | arr l => rfl
    | obj o => rfl
  simp [_normalize_json_row, hid, htitle, hbool]

/-- C7 witness: the spec's scenario, a row with `"is_checked_out": "yes"`
at position 0 fails naming row 1 and the field. -/
theorem normalize_checked_out_literal_bool_witness :
    _normalize_json_row (JsonValue.obj yesRow) 0 =
      Except.error (PyError.valueError "Row 1: is_checked_out must be true or false.") :=
  normalize_checked_out_literal_bool yesRow 0 3 "1984" rfl rfl
    (fun _ h => JsonValue.noConfusion h)

/-- C8 counterexample: the resolved discriminator `" Book "` is neither
exactly "Book" nor "DVD", yet `_normalize_item_type` accepts it (the source
strips whitespace before comparing), so the claim as stated is false. -/
theorem item_type_accepts_untrimmed :
    _normalize_item_type (JsonValue.str " Book ") JsonValue.null 0 = Except.ok "Book" ∧
    " Book " ≠ "Book" ∧ " Book " ≠ "DVD" :=
  ⟨rfl, by decide, by decide⟩

/-- C8 (amended): the discriminator resolved from the primary field with the
legacy fallback, when a string, is whitespace-trimmed and must then equal
exactly "Book" or "DVD" (case-sensitively): matching values are accepted as
the trimmed string, any other trimmed value fails with the `ValueError`
listing the allowed values, and every accepted value is exactly "Book" or
"DVD". -/
theorem item_type_trimmed_exact (primary fallback : JsonValue) (index : Nat) (c : String)
    (hc : (if pyTruthy primary then primary else fallback) = JsonValue.str c) :
    (pyStrip c = "Book" ∨ pyStrip c = "DVD" →
      _normalize_item_type primary fallback index = Except.ok (pyStrip c)) ∧
    (pyStrip c ≠ "Book" → pyStrip c ≠ "DVD" →
      _normalize_item_type primary fallback index =
        Except.error (PyError.valueError (rowMsg index "type must be one of Book, DVD."))) ∧
    (∀ s, _normalize_item_type primary fallback index = Except.ok s →
      s = "Book" ∨ s = "DVD") := by
  refine ⟨?_, ?_, ?_⟩
  · intro hor
    unfold _normalize_item_type
    rw [hc]
    simp [hor]
  · intro h1 h2
    unfold _normalize_item_type
    rw [hc]
    simp [h1, h2]
  · intro s hs
    unfold _normalize_item_type at hs
    rw [hc] at hs
    by_cases h1 : pyStrip c = "Book" ∨ pyStrip c = "DVD"
    · simp [h1] at hs
      subst hs
      exact h1
    · simp [h1] at hs

/-- C8 witness: the lowercase discriminator "book" is rejected with the
message listing the allowed values (case sensitivity). -/
theorem item_type_trimmed_exact_witness :
    _normalize_item_type (JsonValue.str "book") JsonValue.null 0 =
      Except.error (PyError.valueError "Row 1: type must be one of Book, DVD.") :=
  (item_type_trimmed_exact (JsonValue.str "book") JsonValue.null 0 "book" rfl).2.1
    (by decide) (by decide)

/-- C9: when no backing file exists, `load_items` initializes the collection
to empty and writes out a new valid empty-array file, raising nothing and
never prompting (the id counter is simply kept). -/
theorem load_missing_file_initializes (answer : Bool) (st : RepoState) :
    load_items FileContent.absent answer st =
      { state := { items := [], counter := st.counter }, written := some [],
        prompted := false, raised := none } := rfl

/-- C10: a backing file parsing to JSON null, or to the empty string, loads
as an empty collection: no error, no recovery prompt, no write, and the id
counter resynced to 1. -/
theorem load_null_or_empty_payload (answer : Bool) (st : RepoState) :
    load_items (FileContent.parsed JsonValue.null) answer st =
      { state := { items := [], counter := 1 }, written := none,
        prompted := false, raised := none } ∧
    load_items (FileContent.parsed (JsonValue.str "")) answer st =
      { state := { items := [], counter := 1 }, written := none,
        prompted := false, raised := none } :=
  ⟨rfl, rfl⟩

end LibBackend
